import Mathlib

/-!
Verification of the ChargeSpot plugin's station-normalization and
catalog filter/sort core (src/api_client.py, src/charge_spot_dialog.py).

JSON values decoded from the API response are modelled by `JValue`;
Python dicts become association lists in insertion order, Python `None`
is `JValue.null`, and JSON numbers are rationals.  Fallible Python code
(expressions that can raise) is modelled with `Except String`.
-/

/-- A decoded JSON value, as handled by the Python client.  `obj` keeps the
insertion order of keys; a well-formed decoded object has distinct keys. -/
inductive JValue where
  | null : JValue
  | bool : Bool → JValue
  | num : ℚ → JValue
  | str : String → JValue
  | arr : List JValue → JValue
  | obj : List (String × JValue) → JValue

mutual

/-- Decidable equality for `JValue` (hand-written: the inductive is nested). -/
def JValue.decEq : (a b : JValue) → Decidable (a = b)
  | .null, .null => .isTrue rfl
  | .null, .bool _ => .isFalse (fun h => nomatch h)
  | .null, .num _ => .isFalse (fun h => nomatch h)
  | .null, .str _ => .isFalse (fun h => nomatch h)
  | .null, .arr _ => .isFalse (fun h => nomatch h)
  | .null, .obj _ => .isFalse (fun h => nomatch h)
  | .bool _, .null => .isFalse (fun h => nomatch h)
  | .bool a, .bool b =>
    if h : a = b then .isTrue (h ▸ rfl) else .isFalse (fun he => h (JValue.bool.inj he))
  | .bool _, .num _ => .isFalse (fun h => nomatch h)
  | .bool _, .str _ => .isFalse (fun h => nomatch h)
  | .bool _, .arr _ => .isFalse (fun h => nomatch h)
  | .bool _, .obj _ => .isFalse (fun h => nomatch h)
  | .num _, .null => .isFalse (fun h => nomatch h)
  | .num _, .bool _ => .isFalse (fun h => nomatch h)
  | .num a, .num b =>
    if h : a = b then .isTrue (h ▸ rfl) else .isFalse (fun he => h (JValue.num.inj he))
  | .num _, .str _ => .isFalse (fun h => nomatch h)
  | .num _, .arr _ => .isFalse (fun h => nomatch h)
  | .num _, .obj _ => .isFalse (fun h => nomatch h)
  | .str _, .null => .isFalse (fun h => nomatch h)
  | .str _, .bool _ => .isFalse (fun h => nomatch h)
  | .str _, .num _ => .isFalse (fun h => nomatch h)
  | .str a, .str b =>
    if h : a = b then .isTrue (h ▸ rfl) else .isFalse (fun he => h (JValue.str.inj he))
  | .str _, .arr _ => .isFalse (fun h => nomatch h)
  | .str _, .obj _ => .isFalse (fun h => nomatch h)
  | .arr _, .null => .isFalse (fun h => nomatch h)
  | .arr _, .bool _ => .isFalse (fun h => nomatch h)
  | .arr _, .num _ => .isFalse (fun h => nomatch h)
  | .arr _, .str _ => .isFalse (fun h => nomatch h)
  | .arr a, .arr b =>
    match JValue.decEqList a b with
    | .isTrue h => .isTrue (h ▸ rfl)
    | .isFalse h => .isFalse (fun he => h (JValue.arr.inj he))
  | .arr _, .obj _ => .isFalse (fun h => nomatch h)
  | .obj _, .null => .isFalse (fun h => nomatch h)
  | .obj _, .bool _ => .isFalse (fun h => nomatch h)
  | .obj _, .num _ => .isFalse (fun h => nomatch h)
  | .obj _, .str _ => .isFalse (fun h => nomatch h)
  | .obj _, .arr _ => .isFalse (fun h => nomatch h)
  | .obj a, .obj b =>
    match JValue.decEqFields a b with
    | .isTrue h => .isTrue (h ▸ rfl)
    | .isFalse h => .isFalse (fun he => h (JValue.obj.inj he))

/-- Decidable equality for lists of `JValue`. -/
def JValue.decEqList : (a b : List JValue) → Decidable (a = b)
  | [], [] => .isTrue rfl
  | [], _ :: _ => .isFalse (fun h => nomatch h)
  | _ :: _, [] => .isFalse (fun h => nomatch h)
  | a :: as, b :: bs =>
    match JValue.decEq a b with
    | .isFalse h => .isFalse (fun he => h (List.cons.inj he).1)
    | .isTrue h1 =>
      match JValue.decEqList as bs with
      | .isTrue h2 => .isTrue (h1 ▸ h2 ▸ rfl)
      | .isFalse h => .isFalse (fun he => h (List.cons.inj he).2)

/-- Decidable equality for association lists of `JValue`. -/
def JValue.decEqFields : (a b : List (String × JValue)) → Decidable (a = b)
  | [], [] => .isTrue rfl
  | [], _ :: _ => .isFalse (fun h => nomatch h)
  | _ :: _, [] => .isFalse (fun h => nomatch h)
  | (k1, v1) :: as, (k2, v2) :: bs =>
    if hk : k1 = k2 then
      match JValue.decEq v1 v2 with
      | .isFalse h => .isFalse (fun he => h (congrArg Prod.snd (List.cons.inj he).1))
      | .isTrue h1 =>
        match JValue.decEqFields as bs with
        | .isTrue h2 => .isTrue (hk ▸ h1 ▸ h2 ▸ rfl)
        | .isFalse h => .isFalse (fun he => h (List.cons.inj he).2)
    else .isFalse (fun he => hk (congrArg Prod.fst (List.cons.inj he).1))

end

instance : DecidableEq JValue := JValue.decEq

/-- Python dict lookup `d[k]` / `k in d` on an association list. -/
def lookup (fields : List (String × JValue)) (k : String) : Option JValue :=
  (fields.find? (fun p => p.1 == k)).map Prod.snd

/-- Python truthiness of a decoded JSON value (`if v:`). -/
def pyTruthy : JValue → Bool
  | .null => false
  | .bool b => b
  | .num q => q != 0
  | .str s => s != ""
  | .arr l => !l.isEmpty
  | .obj l => !l.isEmpty

/-- `OpenChargeMapAPI._safe_get_nested`: walk `keys` through nested dicts,
returning `default` when a step is missing or the current value is not a
dict, and also when the value reached at the end is `None`. -/
def safeGetNested (data : JValue) (keys : List String) (default : JValue) : JValue :=
  match keys with
  | [] => if data = .null then default else data
  | k :: rest =>
    match data with
    | .obj fields =>
      match lookup fields k with
      | some v => safeGetNested v rest default
      | none => default
    | _ => default

/-- Specification-side path lookup: the value actually stored at the end of
`keys`, when every step exists and goes through a dict. -/
def findPath (data : JValue) (keys : List String) : Option JValue :=
  match keys with
  | [] => some data
  | k :: rest =>
    match data with
    | .obj fields =>
      match lookup fields k with
      | some v => findPath v rest
      | none => none
    | _ => none

/-- Python `d.get(k)` (default `None`); raises AttributeError when the
receiver is not a dict. -/
def pyGet (v : JValue) (k : String) : Except String JValue :=
  match v with
  | .obj fields => .ok ((lookup fields k).getD .null)
  | _ => .error "AttributeError: get on non-dict"

/-- Python iteration `for x in v`: lists yield their items, strings their
characters, dicts their keys; other values raise TypeError. -/
def toIterable : JValue → Except String (List JValue)
  | .arr l => .ok l
  | .str s => .ok (s.toList.map (fun c => .str (String.singleton c)))
  | .obj fields => .ok (fields.map (fun p => .str p.1))
  | _ => .error "TypeError: not iterable"

/-- Python `set.add`: raises TypeError on unhashable values (lists, dicts),
otherwise adds the value if absent.  The set is modelled as a duplicate-free
list in insertion order; only membership in it is relied upon. -/
def setAdd (s : List JValue) (v : JValue) : Except String (List JValue) :=
  match v with
  | .arr _ => .error "TypeError: unhashable"
  | .obj _ => .error "TypeError: unhashable"
  | _ => .ok (if v ∈ s then s else s ++ [v])

/-- Shared loop of `_get_connection_types` / `_get_power_levels`: collect
into a set the truthy values found under `path` in each connection. -/
def collectTitles (path : List String) (acc : List JValue) : List JValue → Except String (List JValue)
  | [] => .ok acc
  | c :: cs =>
    let t := safeGetNested c path .null
    if pyTruthy t then
      match setAdd acc t with
      | .error e => .error e
      | .ok acc2 => collectTitles path acc2 cs
    else collectTitles path acc cs

/-- `OpenChargeMapAPI._get_connection_types`. -/
def getConnectionTypes (connections : List JValue) : Except String (List JValue) :=
  collectTitles ["ConnectionType", "Title"] [] connections

/-- `OpenChargeMapAPI._get_power_levels`. -/
def getPowerLevels (connections : List JValue) : Except String (List JValue) :=
  collectTitles ["Level", "Title"] [] connections

/-- `OpenChargeMapAPI._build_address`: join the truthy address sub-fields
with ", ", falling back to "Unknown Address".  Faithful to the source, it
raises when the argument is not a dict, when a present `Country` value is
not a dict, or when a collected part is not a string (`str.join`). -/
def buildAddress (addressInfo : JValue) : Except String String :=
  match addressInfo with
  | .obj fields =>
    let part : String → List JValue := fun k =>
      match lookup fields k with
      | some v => if pyTruthy v then [v] else []
      | none => []
    let base := part "AddressLine1" ++ part "Town" ++ part "StateOrProvince" ++ part "Postcode"
    match (lookup fields "Country").getD (.obj []) with
    | .obj countryFields =>
      let countryTitle := (lookup countryFields "Title").getD .null
      let parts := base ++ (if pyTruthy countryTitle then [countryTitle] else [])
      match parts.mapM (fun v => match v with | .str s => Except.ok s | _ => Except.error "TypeError: join expects str") with
      | .error e => .error e
      | .ok strs => .ok (if strs.isEmpty then "Unknown Address" else String.intercalate ", " strs)
    | _ => .error "AttributeError: get on non-dict"
  | _ => .error "AttributeError: get on non-dict"

/-- One processed connection record (`_process_connections` loop body). -/
structure ConnectionData where
  id : JValue
  type : JValue
  level : JValue
  power_kw : JValue
  current_type : JValue
  quantity : JValue
  status : JValue
  comments : JValue
deriving DecidableEq

/-- One iteration of `_process_connections`: raises when the connection is
not a dict (`conn.get`). -/
def processConnection (conn : JValue) : Except String ConnectionData :=
  match conn with
  | .obj fields => .ok
      { id := (lookup fields "ID").getD .null
        type := safeGetNested conn ["ConnectionType", "Title"] (.str "Unknown")
        level := safeGetNested conn ["Level", "Title"] (.str "Unknown")
        power_kw := (lookup fields "PowerKW").getD .null
        current_type := safeGetNested conn ["CurrentType", "Title"] (.str "Unknown")
        quantity := (match lookup fields "Quantity" with | some v => v | none => .num 1)
        status := safeGetNested conn ["StatusType", "Title"] (.str "Unknown")
        comments := (lookup fields "Comments").getD .null }
  | _ => .error "AttributeError: get on non-dict"

/-- Error-propagating `map` over a list, as the `_process_connections`
loop behaves: the first raising item aborts the whole call. -/
def mapExcept (f : α → Except String β) : List α → Except String (List β)
  | [] => .ok []
  | a :: as =>
    match f a with
    | .error e => .error e
    | .ok b =>
      match mapExcept f as with
      | .error e => .error e
      | .ok bs => .ok (b :: bs)

/-- One normalized charging station (the `station_data` dict built by
`_process_charging_stations`). -/
structure StationData where
  id : JValue
  name : JValue
  address : String
  latitude : JValue
  longitude : JValue
  distance : JValue
  access_type : JValue
  operator : JValue
  status : JValue
  verification_status : JValue
  num_points : JValue
  cost : JValue
  url : JValue
  phone : JValue
  email : JValue
  comments : JValue
  date_created : JValue
  date_last_verified : JValue
  connections : List ConnectionData
  connection_types : List JValue
  power_levels : List JValue
deriving DecidableEq

/-- Per-item extraction of `_process_charging_stations` (the body of its
`try` block), in the evaluation order of the source: the address build, the
`AddressInfo.get` for distance, the iteration of `Connections`, the
connection loop and the two set builders can each raise. -/
def processStation (station : JValue) : Except String StationData :=
  match station with
  | .obj fields =>
    match buildAddress ((lookup fields "AddressInfo").getD (.obj [])) with
    | .error e => .error e
    | .ok address =>
      match pyGet ((lookup fields "AddressInfo").getD (.obj [])) "Distance" with
      | .error e => .error e
      | .ok distance =>
        match toIterable ((lookup fields "Connections").getD (.arr [])) with
        | .error e => .error e
        | .ok connItems =>
          match mapExcept processConnection connItems with
          | .error e => .error e
          | .ok connections =>
            match getConnectionTypes connItems with
            | .error e => .error e
            | .ok connectionTypes =>
              match getPowerLevels connItems with
              | .error e => .error e
              | .ok powerLevels => .ok
                  { id := (lookup fields "ID").getD .null
                    name := safeGetNested station ["AddressInfo", "Title"] (.str "Unknown Station")
                    address := address
                    latitude := safeGetNested station ["AddressInfo", "Latitude"] .null
                    longitude := safeGetNested station ["AddressInfo", "Longitude"] .null
                    distance := distance
                    access_type := safeGetNested station ["UsageType", "Title"] (.str "Unknown")
                    operator := safeGetNested station ["OperatorInfo", "Title"] (.str "Unknown")
                    status := safeGetNested station ["StatusType", "Title"] (.str "Unknown")
                    verification_status := safeGetNested station ["SubmissionStatus", "Title"] (.str "Unknown")
                    num_points := (match lookup fields "NumberOfPoints" with | some v => v | none => .num 0)
                    cost := safeGetNested station ["UsageCost"] (.str "Unknown")
                    url := (lookup fields "URL").getD .null
                    phone := safeGetNested station ["AddressInfo", "ContactTelephone1"] .null
                    email := safeGetNested station ["AddressInfo", "ContactEmail"] .null
                    comments := (lookup fields "GeneralComments").getD .null
                    date_created := (lookup fields "DateCreated").getD .null
                    date_last_verified := (lookup fields "DateLastVerified").getD .null
                    connections := connections
                    connection_types := connectionTypes
                    power_levels := powerLevels }
  | _ => .error "AttributeError: get on non-dict"

/-- `OpenChargeMapAPI._process_charging_stations`: per-item extraction
inside `try`, appending only items with non-null coordinates; a raising
item is logged and skipped (`except ... continue`). -/
def processChargingStations : List JValue → List StationData
  | [] => []
  | station :: rest =>
    match processStation station with
    | .ok s =>
      if s.latitude ≠ JValue.null ∧ s.longitude ≠ JValue.null then
        s :: processChargingStations rest
      else
        processChargingStations rest
    | .error _ => processChargingStations rest

/-- Python `<` between decoded JSON values, as the list sort uses it:
numbers (and booleans, which are ints in Python) and pairs of strings
compare; any other combination raises TypeError.  (Python also orders two
lists element-wise, but no list-valued sort key occurs in this program, so
the remaining shapes are all modelled as TypeError.) -/
def ratOfBool (b : Bool) : ℚ := if b then 1 else 0

def pyLt : JValue → JValue → Except String Bool
  | .num a, .num b => .ok (decide (a < b))
  | .num a, .bool b => .ok (decide (a < ratOfBool b))
  | .bool a, .num b => .ok (decide (ratOfBool a < b))
  | .bool a, .bool b => .ok (decide (ratOfBool a < ratOfBool b))
  | .str a, .str b => .ok (decide (a < b))
  | _, _ => .error "TypeError: unorderable types"

/-- Python `str.lower()` on a sort key; raises AttributeError on non-strings. -/
def pyLower : JValue → Except String JValue
  | .str s => .ok (.str s.toLower)
  | _ => .error "AttributeError: lower on non-str"

/-- Stable insertion for the key-decorated list: walk past the elements
whose key is strictly below the new key (Python list.sort only ever calls
`<` on keys), and place the new element before the first key not below it. -/
def insertPy (x : JValue × StationData) : List (JValue × StationData) → Except String (List (JValue × StationData))
  | [] => .ok [x]
  | y :: ys =>
    match pyLt y.1 x.1 with
    | .error e => .error e
    | .ok true =>
      match insertPy x ys with
      | .error e => .error e
      | .ok rest => .ok (y :: rest)
    | .ok false => .ok (x :: y :: ys)

/-- Stable sort of a key-decorated list.  A stable comparison sort over a
total key order has a unique result, so insertion sort models Python's
stable `list.sort`; for every list of two or more elements each element
takes part in at least one key comparison, so a TypeError between keys
surfaces exactly as in Python. -/
def isortPy : List (JValue × StationData) → Except String (List (JValue × StationData))
  | [] => .ok []
  | x :: xs =>
    match isortPy xs with
    | .error e => .error e
    | .ok sorted => insertPy x sorted

/-- Python `list.sort(key=keyf, reverse=descending)`: all keys are computed
first; `reverse=True` is the sort of the reversed list, reversed again
(which is how CPython keeps it stable). -/
def pySortByKey (keyf : StationData → Except String JValue) (descending : Bool) (l : List StationData) : Except String (List StationData) :=
  match mapExcept (fun s => match keyf s with | .ok k => Except.ok (k, s) | .error e => Except.error e) l with
  | .error e => .error e
  | .ok keyed =>
    match (if descending then
             match isortPy keyed.reverse with
             | .error e => Except.error e
             | .ok r => Except.ok r.reverse
           else isortPy keyed) with
    | .error e => .error e
    | .ok sorted => .ok (sorted.map Prod.snd)

/-- `ChargeSpotDialog._station_matches_filter`. -/
def stationMatchesFilter (station : StationData) (filterType filterValue : String) : Bool :=
  if filterType = "Access Type" then station.access_type == .str filterValue
  else if filterType = "Operator" then station.operator == .str filterValue
  else if filterType = "Status" then station.status == .str filterValue
  else if filterType = "Connection Type" then station.connection_types.contains (.str filterValue)
  else if filterType = "Power Level" then station.power_levels.contains (.str filterValue)
  else true

/-- The filter stage of `ChargeSpotDialog.apply_filters`: "All" or an empty
filter value keeps the whole catalog (a shallow list copy in the source),
otherwise keep the stations matching the filter, in order. -/
def filterStations (stations : List StationData) (filterType filterValue : String) : List StationData :=
  if filterType = "All" ∨ filterValue = "" then stations
  else stations.filter (fun s => stationMatchesFilter s filterType filterValue)

/-- The sort stage of `ChargeSpotDialog.apply_filters`: dispatch on the
sort combo text; an unknown key leaves the list unsorted. -/
def sortStations (stations : List StationData) (sortBy : String) (descending : Bool) : Except String (List StationData) :=
  if sortBy = "Distance" then pySortByKey (fun s => .ok s.distance) descending stations
  else if sortBy = "Name" then pySortByKey (fun s => pyLower s.name) descending stations
  else if sortBy = "Operator" then pySortByKey (fun s => pyLower s.operator) descending stations
  else if sortBy = "Status" then pySortByKey (fun s => pyLower s.status) descending stations
  else if sortBy = "Number of Points" then pySortByKey (fun s => .ok s.num_points) descending stations
  else .ok stations

/-- The dialog state touched by `apply_filters`: the full result set of the
current search and the derived display list. -/
structure DialogState where
  current_stations : List StationData
  filtered_stations : List StationData
deriving DecidableEq

/-- `ChargeSpotDialog.apply_filters`: early return on an empty catalog,
otherwise filter then sort into `filtered_stations`; `current_stations` is
never written.  An error is a TypeError/AttributeError escaping the sort. -/
def applyFilters (st : DialogState) (filterType filterValue sortBy : String) (descending : Bool) : Except String DialogState :=
  if st.current_stations.isEmpty then .ok st
  else
    match sortStations (filterStations st.current_stations filterType filterValue) sortBy descending with
    | .error e => .error e
    | .ok sorted => .ok { current_stations := st.current_stations, filtered_stations := sorted }

deriving instance DecidableEq for Except

/-- The typed errors `get_charging_stations` can raise. `uncaught` models an
exception escaping the method without being re-wrapped. -/
inductive APIError where
  | accessForbidden (msg : String)
  | requestFailed (msg : String)
  | parseError (msg : String)
  | uncaught (msg : String)
deriving DecidableEq

/-- The fixed remediation text of the 403 error message in
`get_charging_stations`. -/
def forbiddenHints : String :=
  "Access forbidden (403). This could be due to:\n1. Rate limiting - try again later\n2. API key required - consider adding an API key\n3. Geographic restrictions\nResponse: "

/-- The full 403 error message: hints followed by the first 200 characters
of the response body. -/
def forbiddenMessage (bodyText : String) : String :=
  forbiddenHints ++ bodyText.take 200

/-- The response handling of `OpenChargeMapAPI.get_charging_stations` once
an HTTP response has arrived: 403 raises the descriptive error before the
body is even parsed; any other 4xx/5xx raises via `raise_for_status` and is
re-wrapped; an unparsable body raises the parse error; otherwise the decoded
body is handed to `_process_charging_stations` (whose `for` loop raises an
uncaught TypeError if the decoded body is not iterable). -/
def handleResponse (status : Nat) (bodyText : String) (body : Option JValue) : Except APIError (List StationData) :=
  if status = 403 then .error (.accessForbidden (forbiddenMessage bodyText))
  else if 400 ≤ status then .error (.requestFailed ("API request failed: status " ++ toString status))
  else
    match body with
    | none => .error (.parseError "Failed to parse API response")
    | some v =>
      match toIterable v with
      | .ok items => .ok (processChargingStations items)
      | .error e => .error (.uncaught e)

/-- The raw connection of the spec's scenario item. -/
def rawConn7 : JValue :=
  .obj [("ConnectionType", .obj [("Title", .str "Type2")]), ("PowerKW", .num 22)]

/-- The fields of the spec's scenario raw API item (48.8 and 2.3 are written
as the rationals 244/5 and 23/10, which the kernel can evaluate). -/
def rawFields7 : List (String × JValue) :=
  [("AddressInfo", .obj [("Latitude", .num (mkRat 244 5)), ("Longitude", .num (mkRat 23 10)), ("Title", .str "X")]),
   ("Connections", .arr [rawConn7])]

/-- The spec's scenario raw API item. -/
def rawItem7 : JValue := .obj rawFields7

/-- A raw item with valid coordinates whose `Connections` field is JSON
null: iterating `None` raises TypeError during extraction. -/
def rawItemNullConnections : JValue :=
  .obj [("AddressInfo", .obj [("Latitude", .num 1), ("Longitude", .num 2)]), ("Connections", .null)]

/-- A raw item with valid coordinates and one empty connection object. -/
def rawItemEmptyConn : JValue :=
  .obj [("AddressInfo", .obj [("Latitude", .num 1), ("Longitude", .num 2)]), ("Connections", .arr [.obj []])]

/-- Placeholder used only to strip the `Except` wrapper from concrete
stations that are known to extract successfully. -/
def fallbackStation : StationData :=
  { id := .null, name := .null, address := "", latitude := .null, longitude := .null,
    distance := .null, access_type := .null, operator := .null, status := .null,
    verification_status := .null, num_points := .null, cost := .null, url := .null,
    phone := .null, email := .null, comments := .null, date_created := .null,
    date_last_verified := .null, connections := [], connection_types := [], power_levels := [] }

/-- The station normalized from the scenario item. -/
def station7 : StationData := (processStation rawItem7).toOption.getD fallbackStation

/-- The station normalized from the empty-connection item. -/
def stationEmptyConn : StationData := (processStation rawItemEmptyConn).toOption.getD fallbackStation

/-- Raw item builder for the sort tests: valid coordinates, a title, and an
optional reported distance. -/
def mkRawStation (title : String) (dist : Option ℚ) : JValue :=
  .obj [("AddressInfo", .obj ([("Latitude", .num 1), ("Longitude", .num 2), ("Title", .str title)] ++
    (match dist with | some d => [("Distance", .num d)] | none => [])))]

/-- A normalized catalog in which station "A" has a null distance. -/
def catalogNullDistance : List StationData :=
  processChargingStations [mkRawStation "A" none, mkRawStation "B" (some 5)]

/-- A normalized catalog with a distance tie between "A" and "C". -/
def catalogTie : List StationData :=
  processChargingStations [mkRawStation "A" (some 5), mkRawStation "B" (some 1), mkRawStation "C" (some 5)]

theorem setAdd_mem {acc out : List JValue} {v : JValue} (h : setAdd acc v = Except.ok out) (x : JValue) :
    x ∈ out ↔ x ∈ acc ∨ x = v := by
  unfold setAdd at h
  split at h
  · simp at h
  · simp at h
  · simp only [Except.ok.injEq] at h
    subst h
    split
    · rename_i hmem
      constructor
      · exact Or.inl
      · rintro (hx | rfl)
        · exact hx
        · exact hmem
    · simp [List.mem_append]

theorem collectTitles_mem (path : List String) (cs : List JValue) (acc out : List JValue)
    (h : collectTitles path acc cs = Except.ok out) (x : JValue) :
    x ∈ out ↔ x ∈ acc ∨ (pyTruthy x = true ∧ ∃ c ∈ cs, safeGetNested c path JValue.null = x) := by
  induction cs generalizing acc with
  | nil =>
    simp only [collectTitles, Except.ok.injEq] at h
    subst h
    simp
  | cons c cs ih =>
    simp only [collectTitles] at h
    split at h
    · rename_i ht
      split at h
      · simp at h
      · rename_i acc2 hadd
        rw [ih _ h]
        have hmem := setAdd_mem hadd x
        simp only [List.mem_cons]
        constructor
        · rintro (hacc2 | ⟨htx, c2, hc2, hsg⟩)
          · rcases hmem.mp hacc2 with hacc | rfl
            · exact Or.inl hacc
            · exact Or.inr ⟨ht, c, Or.inl rfl, rfl⟩
          · exact Or.inr ⟨htx, c2, Or.inr hc2, hsg⟩
        · rintro (hacc | ⟨htx, c2, (rfl | hc2), hsg⟩)
          · exact Or.inl (hmem.mpr (Or.inl hacc))
          · exact Or.inl (hmem.mpr (Or.inr hsg.symm))
          · exact Or.inr ⟨htx, c2, hc2, hsg⟩
    · rename_i ht
      rw [ih _ h]
      simp only [List.mem_cons]
      constructor
      · rintro (hacc | ⟨htx, c2, hc2, hsg⟩)
        · exact Or.inl hacc
        · exact Or.inr ⟨htx, c2, Or.inr hc2, hsg⟩
      · rintro (hacc | ⟨htx, c2, (rfl | hc2), hsg⟩)
        · exact Or.inl hacc
        · exact absurd (by rw [hsg]; exact htx) ht
        · exact Or.inr ⟨htx, c2, hc2, hsg⟩

theorem mapExcept_ok_forall (f : α → Except String β) {l : List α} {out : List β}
    (h : mapExcept f l = Except.ok out) :
    List.Forall₂ (fun a b => f a = Except.ok b) l out := by
  induction l generalizing out with
  | nil =>
    simp only [mapExcept, Except.ok.injEq] at h
    subst h
    exact .nil
  | cons a as ih =>
    simp only [mapExcept] at h
    split at h
    · simp at h
    · rename_i b hb
      split at h
      · simp at h
      · rename_i bs hbs
        simp only [Except.ok.injEq] at h
        subst h
        exact .cons hb (ih hbs)

theorem processConnection_ok_type {c : JValue} {cd : ConnectionData}
    (h : processConnection c = Except.ok cd) :
    cd.type = safeGetNested c ["ConnectionType", "Title"] (JValue.str "Unknown") := by
  cases c
  case obj fields =>
    simp only [processConnection, Except.ok.injEq] at h
    subst h
    rfl
  all_goals exact absurd h (by simp [processConnection])

theorem processStation_ok_fields {station : JValue} {s : StationData}
    (h : processStation station = Except.ok s) :
    ∃ fields connItems,
      station = JValue.obj fields ∧
      toIterable ((lookup fields "Connections").getD (.arr [])) = Except.ok connItems ∧
      mapExcept processConnection connItems = Except.ok s.connections ∧
      getConnectionTypes connItems = Except.ok s.connection_types ∧
      getPowerLevels connItems = Except.ok s.power_levels ∧
      s.phone = safeGetNested station ["AddressInfo", "ContactTelephone1"] JValue.null ∧
      s.latitude = safeGetNested station ["AddressInfo", "Latitude"] JValue.null ∧
      s.longitude = safeGetNested station ["AddressInfo", "Longitude"] JValue.null := by
  cases station
  case obj fields =>
    refine ⟨fields, ?_⟩
    simp only [processStation] at h
    split at h
    · exact absurd h (by simp)
    rename_i address haddr
    split at h
    · exact absurd h (by simp)
    rename_i distance hdist
    split at h
    · exact absurd h (by simp)
    rename_i connItems hconn
    split at h
    · exact absurd h (by simp)
    rename_i conns hconns
    split at h
    · exact absurd h (by simp)
    rename_i cts hcts
    split at h
    · exact absurd h (by simp)
    rename_i pls hpls
    simp only [Except.ok.injEq] at h
    subst h
    exact ⟨connItems, rfl, hconn, hconns, hcts, hpls, rfl, rfl, rfl⟩
  all_goals exact absurd h (by simp [processStation])

theorem insertPy_mem {x : JValue × StationData} {ys out : List (JValue × StationData)}
    (h : insertPy x ys = Except.ok out) :
    ∀ z ∈ out, z = x ∨ z ∈ ys := by
  induction ys generalizing out with
  | nil =>
    simp only [insertPy, Except.ok.injEq] at h
    subst h
    simp
  | cons y ys ih =>
    simp only [insertPy] at h
    split at h
    · simp at h
    · split at h
      · simp at h
      · rename_i rest hrest
        simp only [Except.ok.injEq] at h
        subst h
        intro z hz
        rcases List.mem_cons.mp hz with rfl | hz2
        · exact Or.inr (List.mem_cons_self _ _)
        · rcases ih hrest z hz2 with rfl | hz3
          · exact Or.inl rfl
          · exact Or.inr (List.mem_cons_of_mem _ hz3)
    · simp only [Except.ok.injEq] at h
      subst h
      intro z hz
      rcases List.mem_cons.mp hz with rfl | hz2
      · exact Or.inl rfl
      · exact Or.inr hz2

theorem isortPy_mem {l out : List (JValue × StationData)}
    (h : isortPy l = Except.ok out) : ∀ z ∈ out, z ∈ l := by
  induction l generalizing out with
  | nil =>
    simp only [isortPy, Except.ok.injEq] at h
    subst h
    simp
  | cons a as ih =>
    simp only [isortPy] at h
    split at h
    · simp at h
    · rename_i sorted hsorted
      intro z hz
      rcases insertPy_mem h z hz with rfl | hz2
      · exact List.mem_cons_self _ _
      · exact List.mem_cons_of_mem _ (ih hsorted z hz2)

theorem mapExcept_keyed_snd {keyf : StationData → Except String JValue} {l : List StationData}
    {keyed : List (JValue × StationData)}
    (h : mapExcept (fun s => match keyf s with | .ok k => Except.ok (k, s) | .error e => Except.error e) l = Except.ok keyed) :
    keyed.map Prod.snd = l := by
  induction l generalizing keyed with
  | nil =>
    simp only [mapExcept, Except.ok.injEq] at h
    subst h
    rfl
  | cons a as ih =>
    simp only [mapExcept] at h
    split at h
    · simp at h
    · rename_i b hb
      split at h
      · simp at h
      · rename_i bs hbs
        simp only [Except.ok.injEq] at h
        subst h
        have hb2 : b.2 = a := by
          cases hk : keyf a with
          | error e => rw [hk] at hb; simp at hb
          | ok k =>
            rw [hk] at hb
            simp only [Except.ok.injEq] at hb
            rw [← hb]
        simp [hb2, ih hbs]

theorem pySortByKey_mem {keyf : StationData → Except String JValue} {d : Bool} {l out : List StationData}
    (h : pySortByKey keyf d l = Except.ok out) : ∀ s ∈ out, s ∈ l := by
  simp only [pySortByKey] at h
  split at h
  · simp at h
  · rename_i keyed hkeyed
    split at h
    · simp at h
    · rename_i sorted hsorted
      simp only [Except.ok.injEq] at h
      subst h
      intro s hs
      rcases List.mem_map.mp hs with ⟨p, hp, rfl⟩
      have hpk : p ∈ keyed := by
        split at hsorted
        · split at hsorted
          · simp at hsorted
          · rename_i r hr
            simp only [Except.ok.injEq] at hsorted
            subst hsorted
            exact List.mem_reverse.mp (isortPy_mem hr p (List.mem_reverse.mp hp))
        · exact isortPy_mem hsorted p hp
      rw [← mapExcept_keyed_snd hkeyed]
      exact List.mem_map_of_mem Prod.snd hpk

theorem sortStations_mem {l out : List StationData} {sb : String} {d : Bool}
    (h : sortStations l sb d = Except.ok out) : ∀ s ∈ out, s ∈ l := by
  simp only [sortStations] at h
  split_ifs at h
  case _ => exact pySortByKey_mem h
  case _ => exact pySortByKey_mem h
  case _ => exact pySortByKey_mem h
  case _ => exact pySortByKey_mem h
  case _ => exact pySortByKey_mem h
  case _ =>
    simp only [Except.ok.injEq] at h
    subst h
    exact fun s hs => hs

theorem filterStations_sub (stations : List StationData) (ft fv : String) :
    ∀ s ∈ filterStations stations ft fv, s ∈ stations := by
  unfold filterStations
  split
  · exact fun s hs => hs
  · exact fun s hs => List.mem_of_mem_filter hs

/-- Claim C9: `_safe_get_nested` is total and returns the default exactly
when some step of the path is absent or a non-dict, or when the value found
at the end of the path is null; otherwise it returns the found value.
Totality (no exception) holds by construction: `safeGetNested` is a total
function mirroring the loop of the source. -/
theorem c9_safe_get_nested_total (data : JValue) (keys : List String) (default : JValue) :
    safeGetNested data keys default =
      match findPath data keys with
      | some v => if v = JValue.null then default else v
      | none => default := by
  induction keys generalizing data with
  | nil => rfl
  | cons k rest ih =>
    cases data with
    | obj fields =>
      simp only [safeGetNested, findPath]
      cases lookup fields k with
      | none => rfl
      | some v => exact ih v
    | null => rfl
    | bool b => rfl
    | num q => rfl
    | str s => rfl
    | arr l => rfl

/-- Claim C5: filtering with field "Operator" and value "Acme" returns
exactly the subsequence of stations whose operator equals "Acme" (in input
order, which `List.filter` preserves); field "All" or an empty filter value
returns the catalog unfiltered. -/
theorem c5_filter_operator (stations : List StationData) :
    filterStations stations "Operator" "Acme" =
      stations.filter (fun s => s.operator == JValue.str "Acme") ∧
    (∀ v, filterStations stations "All" v = stations) ∧
    (∀ f, filterStations stations f "" = stations) := by
  refine ⟨?_, fun v => ?_, fun f => ?_⟩
  · rw [filterStations, if_neg (by decide)]
    exact List.filter_congr (fun x _ => by simp [stationMatchesFilter])
  · rw [filterStations, if_pos (Or.inl rfl)]
  · rw [filterStations, if_pos (Or.inr rfl)]

/-- Claim C6: a 403 response raises the access-forbidden error regardless of
the body (parsed or not), so no station list is returned; its message is the
fixed text naming rate limiting, a possibly required API key and geographic
restrictions, followed by the first 200 characters of the body. -/
theorem c6_forbidden_403 (bodyText : String) (body : Option JValue) :
    handleResponse 403 bodyText body =
      Except.error (.accessForbidden (forbiddenMessage bodyText)) ∧
    forbiddenMessage bodyText =
      "Access forbidden (403). This could be due to:\n1. Rate limiting - try again later\n2. API key required - consider adding an API key\n3. Geographic restrictions\nResponse: " ++ bodyText.take 200 :=
  ⟨rfl, rfl⟩

/-- Claim C7: the spec's scenario raw item normalizes without raising to
exactly one Station with name "X", connection-type set containing exactly
"Type2", and an empty power-level set ("sets" are duplicate-free lists whose
order is irrelevant to every use in the program). -/
theorem c7_scenario :
    processStation rawItem7 = Except.ok station7 ∧
    station7.name = JValue.str "X" ∧
    station7.connection_types = [JValue.str "Type2"] ∧
    station7.power_levels = [] ∧
    processChargingStations [rawItem7] = [station7] := by decide

/-- Claim C1 (code bug): sorting by distance ascending raises TypeError as
soon as a station with a null distance meets another station, because the
`float(inf)` default of `s.get` applies only to a missing key while
normalization always stores the key (possibly as null); the second and
fourth conjuncts document the failing catalog, and the third shows the
non-decreasing stable order (B, A, C — "A" keeping its place before the
equal-keyed "C") on an all-numeric catalog. -/
theorem c1_distance_sort_typeerror :
    applyFilters ⟨catalogNullDistance, []⟩ "All" "" "Distance" false =
      Except.error "TypeError: unorderable types" ∧
    catalogNullDistance.map (fun s => (s.name, s.distance)) =
      [(JValue.str "A", JValue.null), (JValue.str "B", JValue.num 5)] ∧
    Except.map (fun st => st.filtered_stations.map StationData.name)
        (applyFilters ⟨catalogTie, []⟩ "All" "" "Distance" false) =
      Except.ok [JValue.str "B", JValue.str "A", JValue.str "C"] ∧
    catalogTie.map (fun s => (s.name, s.distance)) =
      [(JValue.str "A", JValue.num 5), (JValue.str "B", JValue.num 1), (JValue.str "C", JValue.num 5)] := by
  decide

/-- Claim C2 counterexample: a connection without a `ConnectionType.Title`
receives the type field "Unknown" in `connections` but contributes nothing
to `connection_types`, so the station's `connection_types` (empty) differs
from the deduplicated set of its connections' type fields ({"Unknown"}). -/
theorem c2_counterexample :
    processStation rawItemEmptyConn = Except.ok stationEmptyConn ∧
    stationEmptyConn.connections.map ConnectionData.type = [JValue.str "Unknown"] ∧
    stationEmptyConn.connection_types = [] ∧
    JValue.str "Unknown" ∈ (stationEmptyConn.connections.map ConnectionData.type).dedup ∧
    JValue.str "Unknown" ∉ stationEmptyConn.connection_types := by decide

/-- Claim C2 (amended): for every Station produced by normalization,
`connection_types` holds exactly the truthy (non-null, non-empty) raw
`ConnectionType.Title` values of its raw connection items, and
`power_levels` likewise the truthy raw `Level.Title` values (both empty for
an empty connection list); each connection's type field is the raw title
defaulted to "Unknown", one per raw item in order. -/
theorem c2_connection_types_amended (fields : List (String × JValue)) (s : StationData)
    (connItems : List JValue)
    (h : processStation (.obj fields) = Except.ok s)
    (hconn : toIterable ((lookup fields "Connections").getD (.arr [])) = Except.ok connItems) :
    (∀ x, x ∈ s.connection_types ↔
        pyTruthy x = true ∧ ∃ c ∈ connItems, safeGetNested c ["ConnectionType", "Title"] JValue.null = x) ∧
    (∀ x, x ∈ s.power_levels ↔
        pyTruthy x = true ∧ ∃ c ∈ connItems, safeGetNested c ["Level", "Title"] JValue.null = x) ∧
    List.Forall₂ (fun c cd => cd.type = safeGetNested c ["ConnectionType", "Title"] (JValue.str "Unknown"))
      connItems s.connections := by
  obtain ⟨fields2, connItems2, hobj, hit2, hconns, hcts, hpls, -, -, -⟩ := processStation_ok_fields h
  obtain rfl : fields = fields2 := JValue.obj.inj hobj
  obtain rfl : connItems = connItems2 := Except.ok.inj (hconn.symm.trans hit2)
  refine ⟨fun x => ?_, fun x => ?_, ?_⟩
  · simpa using collectTitles_mem ["ConnectionType", "Title"] connItems [] _ hcts x
  · simpa using collectTitles_mem ["Level", "Title"] connItems [] _ hpls x
  · exact (mapExcept_ok_forall processConnection hconns).imp
      (fun a b hab => processConnection_ok_type hab)

/-- Witness for C2 (amended), at the scenario item: "Type2" is in
`connection_types` because it is the truthy raw title of `rawConn7`. -/
theorem c2_connection_types_amended_witness :
    JValue.str "Type2" ∈ station7.connection_types :=
  ((c2_connection_types_amended rawFields7 station7 [rawConn7] (by decide) (by decide)).1
      (JValue.str "Type2")).mpr ⟨by decide, rawConn7, by decide, by decide⟩

/-- Claim C3 counterexample: a raw item with present, non-null coordinates
but a JSON-null `Connections` field is excluded (iterating `None` raises
TypeError during extraction), so exclusion is not exactly "missing
latitude/longitude". -/
theorem c3_counterexample :
    processChargingStations [rawItemNullConnections] = [] ∧
    findPath rawItemNullConnections ["AddressInfo", "Latitude"] = some (JValue.num 1) ∧
    findPath rawItemNullConnections ["AddressInfo", "Longitude"] = some (JValue.num 2) ∧
    safeGetNested rawItemNullConnections ["AddressInfo", "Latitude"] JValue.null = JValue.num 1 := by
  decide

/-- Claim C3 (amended): normalization excludes exactly the raw items whose
extraction raises or whose extracted latitude/longitude is null (missing,
null, or reached through a non-dict), so every returned Station has
non-null coordinates; a missing optional field such as phone never excludes
an item — it is replaced by the defined default (null for phone). -/
theorem c3_exclusion_amended (raw : List JValue) (item : JValue) (s : StationData)
    (h : processStation item = Except.ok s) :
    (∀ t ∈ processChargingStations raw, t.latitude ≠ JValue.null ∧ t.longitude ≠ JValue.null) ∧
    processChargingStations raw = raw.filterMap (fun it =>
      match processStation it with
      | .ok t => if t.latitude ≠ JValue.null ∧ t.longitude ≠ JValue.null then some t else none
      | .error _ => none) ∧
    s.phone = safeGetNested item ["AddressInfo", "ContactTelephone1"] JValue.null := by
  refine ⟨?_, ?_, ?_⟩
  · induction raw with
    | nil => simp [processChargingStations]
    | cons it rest ih =>
      cases hit : processStation it with
      | ok t =>
        by_cases hg : t.latitude ≠ JValue.null ∧ t.longitude ≠ JValue.null
        · simp only [processChargingStations, hit, if_pos hg]
          intro u hu
          rcases List.mem_cons.mp hu with rfl | hu2
          · exact hg
          · exact ih u hu2
        · simp only [processChargingStations, hit, if_neg hg]
          exact ih
      | error e =>
        simp only [processChargingStations, hit]
        exact ih
  · induction raw with
    | nil => rfl
    | cons it rest ih =>
      cases hit : processStation it with
      | ok t =>
        by_cases hg : t.latitude ≠ JValue.null ∧ t.longitude ≠ JValue.null
        · simp [processChargingStations, List.filterMap_cons, hit, hg, ih]
        · simp [processChargingStations, List.filterMap_cons, hit, hg, ih]
      | error e => simp [processChargingStations, List.filterMap_cons, hit, ih]
  · obtain ⟨-, -, -, -, -, -, -, hphone, -, -⟩ := processStation_ok_fields h
    exact hphone

/-- Witness for C3 (amended): the scenario item's phone is the null default
of the absent `AddressInfo.ContactTelephone1`. -/
theorem c3_exclusion_amended_witness :
    station7.phone = safeGetNested rawItem7 ["AddressInfo", "ContactTelephone1"] JValue.null :=
  (c3_exclusion_amended [rawItem7] rawItem7 station7 (by decide)).2.2

/-- Claim C4: an item whose per-item extraction raises is skipped and the
remaining items are processed as if it were absent; the batch itself never
raises (the batch function is total by construction). -/
theorem c4_malformed_item_skipped (pre post : List JValue) (item : JValue) (e : String)
    (h : processStation item = Except.error e) :
    processChargingStations (pre ++ item :: post) = processChargingStations (pre ++ post) := by
  induction pre with
  | nil => simp [processChargingStations, h]
  | cons p ps ih =>
    cases hp : processStation p with
    | ok t => simp [processChargingStations, hp, ih]
    | error e2 => simp [processChargingStations, hp, ih]

/-- Witness for C4: a malformed raw entry (a bare string) inside a batch is
skipped and the rest of the batch survives. -/
theorem c4_malformed_item_skipped_witness :
    processStation (JValue.str "bad") = Except.error "AttributeError: get on non-dict" ∧
    processChargingStations [JValue.str "bad", rawItem7] = processChargingStations [rawItem7] :=
  ⟨by decide, c4_malformed_item_skipped [] [rawItem7] (JValue.str "bad")
      "AttributeError: get on non-dict" (by decide)⟩

/-- Claim C8: on a non-empty catalog, a successful filter-then-sort run
rebuilds `filtered_stations` out of Station records of the full result set
(each displayed record is one of the catalog's records, unchanged — the
value-level rendering of sharing without copying or mutation), and leaves
the full result set `current_stations` itself untouched. -/
theorem c8_filter_sort_frame (st : DialogState) (ftype fvalue sortKey : String) (d : Bool)
    (st2 : DialogState) (hne : st.current_stations ≠ [])
    (h : applyFilters st ftype fvalue sortKey d = Except.ok st2) :
    st2.current_stations = st.current_stations ∧
    ∀ s ∈ st2.filtered_stations, s ∈ st.current_stations := by
  unfold applyFilters at h
  split at h
  · rename_i hemp
    exact absurd (by simpa using hemp) hne
  · split at h
    · simp at h
    · rename_i sorted hsort
      simp only [Except.ok.injEq] at h
      subst h
      refine ⟨rfl, fun s hs => ?_⟩
      exact filterStations_sub _ _ _ s (sortStations_mem hsort s hs)

/-- Witness for C8: a one-station catalog run through "All"/"Distance"
leaves the catalog unchanged. -/
theorem c8_filter_sort_frame_witness :
    applyFilters ⟨[station7], []⟩ "All" "" "Distance" false =
      Except.ok ⟨[station7], [station7]⟩ ∧
    (DialogState.mk [station7] [station7]).current_stations = [station7] :=
  ⟨by decide, (c8_filter_sort_frame ⟨[station7], []⟩ "All" "" "Distance" false
      ⟨[station7], [station7]⟩ (by decide) (by decide)).1⟩

/-- Claim C10: normalization is order-preserving — the output is obtained
from a sublist of the raw input (the items that neither raised nor lacked
coordinates), each raw survivor mapped to its Station in the same relative
order; and each Station's connections come from mapping the raw Connections
items one-to-one in order. -/
theorem c10_normalization_order (raw : List JValue) (item : JValue) (s : StationData)
    (h : processStation item = Except.ok s) :
    (∃ kept, List.Sublist kept raw ∧
       List.Forall₂ (fun it t => processStation it = Except.ok t ∧
           t.latitude ≠ JValue.null ∧ t.longitude ≠ JValue.null)
         kept (processChargingStations raw)) ∧
    (∃ fields connItems, item = JValue.obj fields ∧
       toIterable ((lookup fields "Connections").getD (.arr [])) = Except.ok connItems ∧
       mapExcept processConnection connItems = Except.ok s.connections) ∧
    (processChargingStations raw).length ≤ raw.length := by
  refine ⟨?_, ?_, ?_⟩
  · induction raw with
    | nil => exact ⟨[], List.nil_sublist [], List.Forall₂.nil⟩
    | cons it rest ih =>
      obtain ⟨kept, hsub, hf⟩ := ih
      cases hit : processStation it with
      | ok t =>
        by_cases hg : t.latitude ≠ JValue.null ∧ t.longitude ≠ JValue.null
        · refine ⟨it :: kept, List.Sublist.cons₂ _ hsub, ?_⟩
          simp only [processChargingStations, hit, if_pos hg]
          exact List.Forall₂.cons ⟨hit, hg⟩ hf
        · refine ⟨kept, List.Sublist.cons _ hsub, ?_⟩
          simp only [processChargingStations, hit, if_neg hg]
          exact hf
      | error e =>
        refine ⟨kept, List.Sublist.cons _ hsub, ?_⟩
        simp only [processChargingStations, hit]
        exact hf
  · obtain ⟨fields, connItems, hobj, hit, hconns, -, -, -, -, -⟩ := processStation_ok_fields h
    exact ⟨fields, connItems, hobj, hit, hconns⟩
  · induction raw with
    | nil => simp [processChargingStations]
    | cons it rest ih =>
      cases hit : processStation it with
      | ok t =>
        by_cases hg : t.latitude ≠ JValue.null ∧ t.longitude ≠ JValue.null
        · simp only [processChargingStations, hit, if_pos hg, List.length_cons]
          omega
        · simp only [processChargingStations, hit, if_neg hg, List.length_cons]
          omega
      | error e =>
        simp only [processChargingStations, hit, List.length_cons]
        omega

/-- Witness for C10: the two-item batch (one raising item, the scenario
item) yields at most two stations. -/
theorem c10_normalization_order_witness :
    (processChargingStations [rawItemNullConnections, rawItem7]).length ≤
      ([rawItemNullConnections, rawItem7] : List JValue).length :=
  (c10_normalization_order [rawItemNullConnections, rawItem7] rawItem7 station7 (by decide)).2.2
